import Mathlib

/-!
Verification of the session / token-lifecycle subsystem of the
ctao-data-explorer repository.

Embedded source files:
* `src/api/db.py` — the token cipher (`encrypt_token` / `decrypt_token`,
  lines 46-69) built on the external `cryptography.fernet` library;
* `src/auth_service/routers/auth.py` — the current session lookup with
  token-refresh coordination (`get_current_session_user_data`) and
  `logout_session`;
* `src/api/session_auth.py` — the plain session lookup used by the API app;
* `src/api/auth.py` — the legacy session lookup (still imported by
  `src/api/basket.py` and `src/api/deps.py`), which deletes the session on
  token expiry / refresh failure;
* `src/api/main.py` lines 198-219 — the `rolling_session_cookie` middleware.

Conventions of the embedding:
* Unix timestamps (Python floats) are modelled as `Int` seconds.
* Python exceptions are modelled by totality: fallible operations return
  `Option`, and "never raises" is expressed by the functions being total.
* Python truthiness of optional strings / numbers is modelled by the
  `truthyStr` / `truthyInt` helpers (`None`, `""` and `0` are falsy).
* The Redis session store is an association list of key / (ttl, value)
  pairs; TTL expiry is the store's business, so an expired key is simply
  an absent key.
* The one outbound IdP token-endpoint call a lookup can make is modelled
  by an `IdpResult` oracle argument; the number of calls actually made is
  reported in the result.
-/

/-- Boolean list-prefix test, used for the Fernet model and for Python's
substring operator below. -/
def listPref : List Char → List Char → Bool
  | [], _ => true
  | _ :: _, [] => false
  | a :: as, b :: bs => a == b && listPref as bs

/-- Boolean substring test on char lists; models Python's `pat in s`. -/
def listSub (p : List Char) : List Char → Bool
  | [] => listPref p []
  | c :: t => listPref p (c :: t) || listSub p t

/-! ## Token cipher (`src/api/db.py`, lines 46-69)

The `cryptography.fernet` library itself is external to the repository; it is
modelled here as an authenticated symmetric scheme: a key is a 44-character
string (the library accepts exactly the 44-character urlsafe-base64 encodings
of 32-byte keys), a ciphertext produced under key `k` is tagged with `k`, and
decryption returns the plaintext exactly on images of encryption under the
same key and fails (the library raises `InvalidToken`) on everything else. -/

/-- Model of Fernet key validity: `Fernet(key)` succeeds exactly on valid
keys. -/
def validFernetKey (k : String) : Bool := k.length == 44

/-- Model of `Fernet.encrypt` (external library). -/
def fernetEncrypt (k pt : String) : String := k ++ ":" ++ pt

/-- Model of `Fernet.decrypt` (external library): succeeds exactly on
`fernetEncrypt k pt`, returning `pt`; `none` models the `InvalidToken`
exception raised on a wrong key or a corrupted ciphertext. -/
def fernetDecrypt (k ct : String) : Option String :=
  if listPref (k ++ ":").data ct.data then
    some (String.mk (ct.data.drop (k ++ ":").data.length))
  else none

/-- Module initialisation of `src/api/db.py` lines 46-55: with no configured
key (empty string) or a malformed key the module-level `fernet_cipher` is
`None`; otherwise it is a Fernet cipher for the key. -/
def mkFernetCipher (keyStr : String) : Option String :=
  if keyStr = "" then none
  else if validFernetKey keyStr then some keyStr else none

/-- Embeds `encrypt_token` (`src/api/db.py` lines 57-60): encrypt when the cipher and
the token are both truthy, else `None`. -/
def encrypt_token (cipher : Option String) (token : String) : Option String :=
  match cipher with
  | some k => if token = "" then none else some (fernetEncrypt k token)
  | none => none

/-- Embeds `decrypt_token` (`src/api/db.py` lines 62-69): decrypt when the cipher and
the ciphertext are both truthy, catching every decryption exception into
`None`; else `None`. -/
def decrypt_token (cipher : Option String) (encrypted_token : String) :
    Option String :=
  match cipher with
  | some k => if encrypted_token = "" then none else fernetDecrypt k encrypted_token
  | none => none

/-! ## Constants

`ctao_shared/constants.py` is not under `src/`. Modelled from the spec: §6
gives the session-store key namespace `"<prefix>:<session-id>"`; the tests
(`src/api/tests/`) and the legacy `src/api/auth.py` pin the cookie name
`"ctao_session_main"` and the session JSON field names (`"app_user_id"`,
`"access_token"`, ...), and `src/api/oauth_client.py` line 7 pins the
provider name `"ctao"`. Only the cookie name is observable in a claim; the
exact namespace text is opaque. -/

/-- The session cookie name. -/
def COOKIE_NAME_MAIN_SESSION : String := "ctao_session_main"

/-- The session-store key namespace (`SESSION_KEY_PREFIX` in the source). -/
def SESSION_KEY_NS : String := "session:"

/-- The IdP provider name. -/
def CTAO_PROVIDER_NAME : String := "ctao"

/-- Global configuration (`ctao_shared/config.py`, class `Settings`),
restricted to the fields this subsystem reads; defaults as in the source
(8 h session, 300 s refresh buffer, no fake expiry, no encryption key). -/
structure Settings where
  SESSION_DURATION_SECONDS : Int := 28800
  REFRESH_BUFFER_SECONDS : Int := 300
  OIDC_FAKE_EXPIRES_IN : Option Int := none
  REFRESH_TOKEN_ENCRYPTION_KEY : String := ""
  deriving Repr, DecidableEq

/-- Python truthiness of an optional string (`None` and `""` are falsy). -/
def truthyStr : Option String → Bool
  | none => false
  | some s => !(s == "")

/-- Python truthiness of an optional number (`None` and `0` are falsy). -/
def truthyInt : Option Int → Bool
  | none => false
  | some n => !(n == 0)

/-! ## Data model -/

/-- A parsed session record (the JSON blob of §3 of the spec). The lookup's
`or`-chains over legacy fallback keys (`"sub"`, `"email"`, ...) are
represented by the canonical fields, which no claim distinguishes. -/
structure SessionRecord where
  app_user_id : Option Int := none
  iam_sub : Option String := none
  iam_email : Option String := none
  iam_given_name : Option String := none
  iam_family_name : Option String := none
  access_token : Option String := none
  access_token_expiry : Option Int := none
  deriving Repr, DecidableEq

/-- What a session-store key can hold: the empty string (falsy when read), a
non-empty blob that is not valid JSON, or a JSON session record. -/
inductive StoredVal where
  | empty : StoredVal
  | malformed : StoredVal
  | record : SessionRecord → StoredVal
  deriving Repr, DecidableEq

/-- A live store entry: remaining TTL and value. -/
structure RedisEntry where
  ttl : Int
  val : StoredVal
  deriving Repr, DecidableEq

/-- The session store: live keys with TTL and value. A key whose TTL has
elapsed is simply absent (expiry is enforced by the store itself). -/
abbrev RedisState := List (String × RedisEntry)

/-- Model of `GET key`. -/
def redisGet (st : RedisState) (k : String) : Option StoredVal :=
  (st.find? (fun e => e.1 == k)).map (fun e => e.2.val)

/-- The TTL currently attached to a key. -/
def redisTtl (st : RedisState) (k : String) : Option Int :=
  (st.find? (fun e => e.1 == k)).map (fun e => e.2.ttl)

/-- Model of `EXPIRE key ttl`: reset the TTL of an existing key (the first — i.e. the
live — occurrence), keeping its value; no-op when the key is absent. -/
def redisExpire (st : RedisState) (k : String) (ttl : Int) : RedisState :=
  match st with
  | [] => []
  | e :: rest =>
    if e.1 == k then (e.1, ⟨ttl, e.2.val⟩) :: rest
    else e :: redisExpire rest k ttl

/-- Model of `SETEX key ttl value`: bind the key to the value with the given TTL. -/
def redisSetex (st : RedisState) (k : String) (ttl : Int) (v : StoredVal) :
    RedisState :=
  (k, ⟨ttl, v⟩) :: st.filter (fun e => !(e.1 == k))

/-- Model of `DEL key`. -/
def redisDel (st : RedisState) (k : String) : RedisState :=
  st.filter (fun e => !(e.1 == k))

/-- A `user_refresh_tokens` row (`src/auth_service/models.py`), as the ORM
object in memory; the legacy refresh path can assign `None` to
`encrypted_refresh_token`, hence the `Option`. `last_used_at` carries a Unix
timestamp. -/
structure UserRefreshToken where
  user_id : Int
  iam_provider_name : String
  encrypted_refresh_token : Option String
  last_used_at : Option Int := none
  deriving Repr, DecidableEq

/-- The durable refresh-token repository. -/
abbrev Db := List UserRefreshToken

/-- Model of `select(UserRefreshToken).where(user_id == uid, iam_provider_name == p)`
followed by `.scalars().first()`. -/
def findRT (db : Db) (uid : Int) (provider : String) :
    Option UserRefreshToken :=
  db.find? (fun r => r.user_id == uid && r.iam_provider_name == provider)

/-- Mutating the ORM object returned by `findRT` updates that (first
matching) row in place. -/
def updateFirstRT (db : Db) (uid : Int) (provider : String)
    (f : UserRefreshToken → UserRefreshToken) : Db :=
  match db with
  | [] => []
  | r :: rest =>
    if r.user_id == uid && r.iam_provider_name == provider then f r :: rest
    else r :: updateFirstRT rest uid provider f

/-- JSON body of a successful IdP token-endpoint response. A response missing
the mandatory `access_token` key makes the handler raise inside the same
`try`, which is observably identical to `IdpResult.err`. -/
structure TokenResponse where
  access_token : String
  expires_in : Option Int := none
  refresh_token : Option String := none
  deriving Repr, DecidableEq

/-- Outcome of the (at most one) `oauth.ctao.fetch_access_token` call a
lookup can make; `err` models any exception raised by the call. -/
inductive IdpResult where
  | ok : TokenResponse → IdpResult
  | err : IdpResult
  deriving Repr, DecidableEq

/-- The dict returned by a successful session lookup. -/
structure UserData where
  app_user_id : Int
  iam_subject_id : Option String
  email : Option String
  first_name : Option String
  last_name : Option String
  iam_access_token : Option String
  is_active : Bool
  is_superuser : Bool
  deriving Repr, DecidableEq

/-- The final dict build of the lookups (lines 152-178 of
`src/auth_service/routers/auth.py` and the analogous returns of the other
two lookups). -/
def mkUserData (r : SessionRecord) (uid : Int) (tok : Option String) :
    UserData :=
  { app_user_id := uid
    iam_subject_id := r.iam_sub
    email := r.iam_email
    first_name := r.iam_given_name
    last_name := r.iam_family_name
    iam_access_token := tok
    is_active := true
    is_superuser := false }

/-- Result of one run of a token-refreshing session lookup: the returned
user dict (or `None`), the final session store and database, and how many
IdP token-endpoint calls were made. -/
structure LookupResult where
  result : Option UserData
  redis : RedisState
  db : Db
  idpCalls : Nat
  deriving Repr, DecidableEq

/-- A session record with the access-token fields nulled out
(`src/auth_service/routers/auth.py` lines 100-101). -/
def nulledRecord (r : SessionRecord) : SessionRecord :=
  { r with access_token := none, access_token_expiry := none }

/-- The session record after a successful refresh (lines 122-126 and 135-136
of `src/auth_service/routers/auth.py`, identically lines 128-134 and 143-144
of `src/api/auth.py`): the new expiry is `now` plus the granted `expires_in`
(default 3600), overridden by a truthy `OIDC_FAKE_EXPIRES_IN`. -/
def refreshedRecord (s : Settings) (now : Int) (r : SessionRecord)
    (resp : TokenResponse) : SessionRecord :=
  { r with
      access_token := some resp.access_token
      access_token_expiry := some (now +
        (if truthyInt s.OIDC_FAKE_EXPIRES_IN then s.OIDC_FAKE_EXPIRES_IN.getD 0
         else resp.expires_in.getD 3600)) }

/-- Refresh-token rotation, lines 128-133 of
`src/auth_service/routers/auth.py`: when the IdP response carries a
`refresh_token`, the stored ciphertext is overwritten only when encrypting
the new token succeeded, and `last_used_at` is bumped either way. -/
def rotatedDb (s : Settings) (now : Int) (db : Db) (uid : Int)
    (resp : TokenResponse) : Db :=
  match resp.refresh_token with
  | some nrt =>
    updateFirstRT db uid CTAO_PROVIDER_NAME (fun rc =>
      match encrypt_token (mkFernetCipher s.REFRESH_TOKEN_ENCRYPTION_KEY) nrt with
      | some enc => { rc with
          encrypted_refresh_token := some enc
          last_used_at := some now }
      | none => { rc with last_used_at := some now })
  | none => db

/-- Refresh-token rotation of the legacy lookup, lines 136-140 of
`src/api/auth.py`: the result of `encrypt_token` is assigned to the row with
no `None` check. -/
def rotatedDbLegacy (s : Settings) (now : Int) (db : Db) (uid : Int)
    (resp : TokenResponse) : Db :=
  match resp.refresh_token with
  | some nrt =>
    updateFirstRT db uid CTAO_PROVIDER_NAME (fun rc =>
      { rc with
          encrypted_refresh_token :=
            encrypt_token (mkFernetCipher s.REFRESH_TOKEN_ENCRYPTION_KEY) nrt
          last_used_at := some now })
  | none => db

namespace AuthService

/-- The `try` block of lines 94-150 of `src/auth_service/routers/auth.py`
plus the final dict build: token-freshness handling for a validated session
record `r` stored at `key` with truthy `app_user_id = uid`. Every branch is
total: the broad `except` at line 149 and the inner one at line 141 mean no
exception escapes. -/
def handleTokens (s : Settings) (now : Int) (key : String) (r : SessionRecord)
    (uid : Int) (redis : RedisState) (db : Db) (idp : IdpResult) :
    LookupResult :=
  if truthyStr r.access_token && truthyInt r.access_token_expiry then
    let remaining := r.access_token_expiry.getD 0 - now
    if remaining ≤ 0 then
      -- lines 98-103: expire the IAM token but DO NOT drop the app session
      ⟨some (mkUserData (nulledRecord r) uid none),
        redisSetex redis key s.SESSION_DURATION_SECONDS
          (StoredVal.record (nulledRecord r)),
        db, 0⟩
    else if remaining < s.REFRESH_BUFFER_SECONDS then
      -- lines 105-148: try to refresh; on failure keep the session intact
      match findRT db uid CTAO_PROVIDER_NAME with
      | some rec =>
        if truthyStr rec.encrypted_refresh_token then
          match decrypt_token (mkFernetCipher s.REFRESH_TOKEN_ENCRYPTION_KEY)
              (rec.encrypted_refresh_token.getD "") with
          | some _ =>
            match idp with
            | IdpResult.ok resp =>
              ⟨some (mkUserData (refreshedRecord s now r resp) uid
                  (some resp.access_token)),
                redisSetex redis key s.SESSION_DURATION_SECONDS
                  (StoredVal.record (refreshedRecord s now r resp)),
                rotatedDb s now db uid resp, 1⟩
            | IdpResult.err =>
              -- line 141-142: refresh failed, keep the app session
              ⟨some (mkUserData r uid r.access_token), redis, db, 1⟩
          | none =>
            -- lines 143-146: failed to decrypt the stored refresh token
            ⟨some (mkUserData r uid r.access_token), redis, db, 0⟩
        else ⟨some (mkUserData r uid r.access_token), redis, db, 0⟩
      | none =>
        -- lines 147-148: no refresh token on file
        ⟨some (mkUserData r uid r.access_token), redis, db, 0⟩
    else ⟨some (mkUserData r uid r.access_token), redis, db, 0⟩
  else ⟨some (mkUserData r uid r.access_token), redis, db, 0⟩

/-- Embeds `get_current_session_user_data` (`src/auth_service/routers/auth.py`,
lines 61-178). -/
def get_current_session_user_data (s : Settings) (now : Int)
    (cookie : Option String) (redis : RedisState) (db : Db) (idp : IdpResult) :
    LookupResult :=
  match cookie with
  | none => ⟨none, redis, db, 0⟩
  | some session_id =>
    if session_id = "" then ⟨none, redis, db, 0⟩
    else
      let key := SESSION_KEY_NS ++ session_id
      match redisGet redis key with
      | none => ⟨none, redis, db, 0⟩
      | some sv =>
        if sv = StoredVal.empty then ⟨none, redis, db, 0⟩
        else
          -- line 77: keep the Redis entry alive, before parsing
          let redis2 := redisExpire redis key s.SESSION_DURATION_SECONDS
          match sv with
          | StoredVal.record r =>
            match r.app_user_id with
            | some uid =>
              if uid = 0 then ⟨none, redis2, db, 0⟩
              else handleTokens s now key r uid redis2 db idp
            | none => ⟨none, redis2, db, 0⟩
          | _ => ⟨none, redis2, db, 0⟩

end AuthService

/-- Outcome of `logout_session`: final store and database (the cleared
response cookie is not modelled; no claim concerns it). -/
structure LogoutResult where
  redis : RedisState
  db : Db
  deriving Repr, DecidableEq

/-- Embeds `logout_session` (`src/auth_service/routers/auth.py`, lines 228-266).
FastAPI resolves the optional-user dependency (the session lookup, which may
itself write to the store, the database and the IdP) before the handler body
runs; the handler then deletes the session key and, when a user was resolved
with truthy `app_user_id`, every refresh-token row of that user. -/
def logout_session (s : Settings) (now : Int) (cookie : Option String)
    (redis : RedisState) (db : Db) (idp : IdpResult) : LogoutResult :=
  let lk := AuthService.get_current_session_user_data s now cookie redis db idp
  match cookie with
  | none => ⟨lk.redis, lk.db⟩
  | some session_id =>
    if session_id = "" then ⟨lk.redis, lk.db⟩
    else
      let redis2 := redisDel lk.redis (SESSION_KEY_NS ++ session_id)
      match lk.result with
      | some ud =>
        if ud.app_user_id = 0 then ⟨redis2, lk.db⟩
        else ⟨redis2, lk.db.filter (fun rc => !(rc.user_id == ud.app_user_id))⟩
      | none => ⟨redis2, lk.db⟩

/-- Result of the plain session lookup of `src/api/session_auth.py`. -/
structure SimpleResult where
  result : Option UserData
  redis : RedisState
  deriving Repr, DecidableEq

namespace SessionAuth

/-- Embeds `get_current_session_user_data` (`src/api/session_auth.py`, lines 24-59):
cookie → store get → expire → JSON parse → `app_user_id` check → dict; no
token-freshness handling. -/
def get_current_session_user_data (s : Settings) (cookie : Option String)
    (redis : RedisState) : SimpleResult :=
  match cookie with
  | none => ⟨none, redis⟩
  | some session_id =>
    if session_id = "" then ⟨none, redis⟩
    else
      let key := SESSION_KEY_NS ++ session_id
      match redisGet redis key with
      | none => ⟨none, redis⟩
      | some sv =>
        if sv = StoredVal.empty then ⟨none, redis⟩
        else
          let redis2 := redisExpire redis key s.SESSION_DURATION_SECONDS
          match sv with
          | StoredVal.record r =>
            match r.app_user_id with
            | some uid =>
              if uid = 0 then ⟨none, redis2⟩
              else ⟨some (mkUserData r uid r.access_token), redis2⟩
            | none => ⟨none, redis2⟩
          | _ => ⟨none, redis2⟩

end SessionAuth

namespace ApiAuth

/-- Legacy `get_current_session_user_data` (`src/api/auth.py`, lines 55-172),
still the dependency of the basket routes via `src/api/deps.py` and
`src/api/basket.py`: requires `app_user_id`, a token and an expiry, and
deletes the session (returning no user) on token expiry and on every
refresh-failure path. -/
def get_current_session_user_data (s : Settings) (now : Int)
    (cookie : Option String) (redis : RedisState) (db : Db) (idp : IdpResult) :
    LookupResult :=
  match cookie with
  | none => ⟨none, redis, db, 0⟩
  | some session_id =>
    if session_id = "" then ⟨none, redis, db, 0⟩
    else
      let key := SESSION_KEY_NS ++ session_id
      match redisGet redis key with
      | none => ⟨none, redis, db, 0⟩
      | some sv =>
        if sv = StoredVal.empty then ⟨none, redis, db, 0⟩
        else
          let redis2 := redisExpire redis key s.SESSION_DURATION_SECONDS
          match sv with
          | StoredVal.record r =>
            -- line 82: `if not app_user_id or not iam_access_token or not
            -- iam_access_token_expiry: return None`
            if truthyInt r.app_user_id && truthyStr r.access_token &&
                truthyInt r.access_token_expiry then
              let uid := r.app_user_id.getD 0
              let remaining := r.access_token_expiry.getD 0 - now
              if remaining ≤ 0 then
                -- lines 90-93: clear the session
                ⟨none, redisDel redis2 key, db, 0⟩
              else if remaining < s.REFRESH_BUFFER_SECONDS then
                match findRT db uid CTAO_PROVIDER_NAME with
                | some rec =>
                  if truthyStr rec.encrypted_refresh_token then
                    match decrypt_token
                        (mkFernetCipher s.REFRESH_TOKEN_ENCRYPTION_KEY)
                        (rec.encrypted_refresh_token.getD "") with
                    | some _ =>
                      match idp with
                      | IdpResult.ok resp =>
                        -- line 138 (via `rotatedDbLegacy`): the fresh
                        -- ciphertext is stored with no null check
                        ⟨some (mkUserData (refreshedRecord s now r resp) uid
                            (some resp.access_token)),
                          redisSetex redis2 key s.SESSION_DURATION_SECONDS
                            (StoredVal.record (refreshedRecord s now r resp)),
                          rotatedDbLegacy s now db uid resp, 1⟩
                      | IdpResult.err =>
                        -- lines 153-159: delete the session
                        ⟨none, redisDel redis2 key, db, 1⟩
                    | none =>
                      -- lines 111-114: decryption failed, clear the session
                      ⟨none, redisDel redis2 key, db, 0⟩
                  else ⟨none, redisDel redis2 key, db, 0⟩
                | none =>
                  -- lines 105-108: no refresh token, clear the session
                  ⟨none, redisDel redis2 key, db, 0⟩
              else ⟨some (mkUserData r uid r.access_token), redis2, db, 0⟩
            else ⟨none, redis2, db, 0⟩
          | _ => ⟨none, redis2, db, 0⟩

end ApiAuth

/-- An outgoing response, reduced to its `Set-Cookie` headers (raw header
values, as `response.headers.getlist("set-cookie")` yields them). -/
structure MwResponse where
  setCookieHeaders : List String
  deriving Repr, DecidableEq

/-- Serialization of `response.set_cookie(name, value, max_age=...)` into one
`Set-Cookie` header; cookie attributes beyond `Max-Age` play no role in any
claim and are fixed. -/
def serializeSetCookie (name value : String) (maxAge : Int) : String :=
  name ++ "=" ++ value ++ "; Max-Age=" ++ toString maxAge ++ "; Path=/; HttpOnly"

/-- Embeds the `rolling_session_cookie` middleware (`src/api/main.py`, lines 198-219):
`requestCookie` is `request.cookies.get("ctao_session_main")`. The guard is
Python's substring test `f"<cookie-name>=" in hdr` over the response's
existing `Set-Cookie` headers. -/
def rolling_session_cookie (s : Settings) (requestCookie : Option String)
    (resp : MwResponse) : MwResponse :=
  if resp.setCookieHeaders.any
      (fun hdr => listSub (COOKIE_NAME_MAIN_SESSION ++ "=").data hdr.data) then
    resp
  else
    match requestCookie with
    | some session_id =>
      if session_id = "" then resp
      else
        ⟨resp.setCookieHeaders ++
          [serializeSetCookie COOKIE_NAME_MAIN_SESSION session_id
            s.SESSION_DURATION_SECONDS]⟩
    | none => resp

/-- A well-formed (44-character) Fernet key, for concrete instances. -/
def testKeyA : String := "0123456789012345678901234567890123456789ABCD"

/-- A second, different well-formed key, for concrete instances. -/
def testKeyB : String := "0123456789012345678901234567890123456789ABCE"

/-! ## Helper lemmas -/

theorem listPref_iff (p : List Char) : ∀ h : List Char,
    listPref p h = true ↔ ∃ t, h = p ++ t := by
  induction p with
  | nil => intro h; simp [listPref]
  | cons a as ih =>
    intro h
    cases h with
    | nil => simp [listPref]
    | cons b bs =>
      simp only [listPref, Bool.and_eq_true, beq_iff_eq, ih, List.cons_append,
        List.cons.injEq]
      constructor
      · rintro ⟨rfl, t, rfl⟩; exact ⟨t, rfl, rfl⟩
      · rintro ⟨t, rfl, rfl⟩; exact ⟨rfl, t, rfl⟩

theorem listPref_append (p t : List Char) : listPref p (p ++ t) = true :=
  (listPref_iff p (p ++ t)).mpr ⟨t, rfl⟩

theorem listSub_of_pref (p h : List Char) (hp : listPref p h = true) :
    listSub p h = true := by
  cases h with
  | nil => simpa [listSub] using hp
  | cons c t => simp [listSub, hp]

theorem listSub_cons_of_sub (p : List Char) (c : Char) (t : List Char)
    (h : listSub p t = true) : listSub p (c :: t) = true := by
  simp [listSub, h]

theorem listSub_append_left (p pre t : List Char) :
    listSub p (pre ++ (p ++ t)) = true := by
  induction pre with
  | nil => exact listSub_of_pref _ _ (listPref_append p t)
  | cons c cs ih => exact listSub_cons_of_sub _ _ _ ih

theorem fernetDecrypt_encrypt (k pt : String) :
    fernetDecrypt k (fernetEncrypt k pt) = some pt := by
  unfold fernetDecrypt fernetEncrypt
  have h : (k ++ ":" ++ pt).data = (k ++ ":").data ++ pt.data :=
    String.data_append _ _
  rw [h, listPref_append, if_pos rfl, List.drop_left]

theorem fernetEncrypt_ne_empty (k pt : String) : fernetEncrypt k pt ≠ "" := by
  unfold fernetEncrypt
  intro h
  have hd : ((k ++ ":") ++ pt).data = ("" : String).data := by rw [h]
  rw [String.data_append, String.data_append] at hd
  simp at hd

theorem validFernetKey_ne_empty (k : String) (h : validFernetKey k = true) :
    k ≠ "" := by
  intro hk
  rw [hk] at h
  simp [validFernetKey] at h

/-- If a ciphertext decrypts under key `k`, it is an encryption under `k`. -/
theorem fernetDecrypt_eq_some (k ct pt : String)
    (h : fernetDecrypt k ct = some pt) : fernetEncrypt k pt = ct := by
  unfold fernetDecrypt at h
  by_cases hp : listPref (k ++ ":").data ct.data = true
  · rw [if_pos hp] at h
    obtain ⟨t, ht⟩ := (listPref_iff (k ++ ":").data ct.data).mp hp
    rw [ht, List.drop_left] at h
    have hpt : String.mk t = pt := Option.some.inj h
    unfold fernetEncrypt
    apply String.ext
    rw [String.data_append, ht, ← hpt]
  · rw [if_neg hp] at h
    exact absurd h (by simp)

/-- Tags under distinct valid keys differ, so cross-key decryption fails. -/
theorem fernetDecrypt_wrong_key (k1 k2 pt : String)
    (h1 : validFernetKey k1 = true) (h2 : validFernetKey k2 = true)
    (hne : k1 ≠ k2) : fernetDecrypt k2 (fernetEncrypt k1 pt) = none := by
  have l1 : k1.data.length = 44 := by simpa [validFernetKey] using h1
  have l2 : k2.data.length = 44 := by simpa [validFernetKey] using h2
  unfold fernetDecrypt
  rw [if_neg]
  intro hp
  obtain ⟨t, ht⟩ :=
    (listPref_iff (k2 ++ ":").data (fernetEncrypt k1 pt).data).mp hp
  unfold fernetEncrypt at ht
  rw [String.data_append, String.data_append, String.data_append] at ht
  have hinj := (List.append_inj ht (by simp [l1, l2])).1
  have hkey := (List.append_inj hinj (by rw [l1, l2])).1
  exact hne (String.ext hkey)

theorem mkFernetCipher_valid (k : String) (hk : validFernetKey k = true) :
    mkFernetCipher k = some k := by
  unfold mkFernetCipher
  rw [if_neg (validFernetKey_ne_empty k hk), if_pos hk]

theorem redisGet_setex_self (st : RedisState) (k : String) (ttl : Int)
    (v : StoredVal) : redisGet (redisSetex st k ttl v) k = some v := by
  simp [redisSetex, redisGet, List.find?]

theorem redisTtl_setex_self (st : RedisState) (k : String) (ttl : Int)
    (v : StoredVal) : redisTtl (redisSetex st k ttl v) k = some ttl := by
  simp [redisSetex, redisTtl, List.find?]

theorem redisGet_del_self (st : RedisState) (k : String) :
    redisGet (redisDel st k) k = none := by
  induction st with
  | nil => rfl
  | cons e rest ih =>
    by_cases h : e.1 == k
    · rw [show redisDel (e :: rest) k = redisDel rest k by simp [redisDel, h]]
      exact ih
    · rw [show redisDel (e :: rest) k = e :: redisDel rest k by simp [redisDel, h]]
      rw [show redisGet (e :: redisDel rest k) k = redisGet (redisDel rest k) k by
        simp [redisGet, List.find?, h]]
      exact ih

theorem redisGet_expire_self (st : RedisState) (k : String) (ttl : Int) :
    redisGet (redisExpire st k ttl) k = redisGet st k := by
  induction st with
  | nil => rfl
  | cons e rest ih =>
    by_cases h : e.1 == k
    · simp [redisExpire, redisGet, List.find?, h]
    · simpa [redisExpire, redisGet, List.find?, h] using ih

theorem redisTtl_expire_self (st : RedisState) (k : String) (ttl : Int)
    (h : redisGet st k ≠ none) :
    redisTtl (redisExpire st k ttl) k = some ttl := by
  induction st with
  | nil => exact absurd rfl h
  | cons e rest ih =>
    by_cases he : e.1 == k
    · simp [redisExpire, redisTtl, List.find?, he]
    · have h2 : redisGet rest k ≠ none := by
        simpa [redisGet, List.find?, he] using h
      simpa [redisExpire, redisTtl, List.find?, he] using ih h2

theorem authService_lookup_valid_record (s : Settings) (now : Int)
    (sid : String) (redis : RedisState) (db : Db) (idp : IdpResult)
    (r : SessionRecord) (uid : Int) (hsid : sid ≠ "")
    (hget : redisGet redis (SESSION_KEY_NS ++ sid) = some (StoredVal.record r))
    (huid : r.app_user_id = some uid) (huid0 : uid ≠ 0) :
    AuthService.get_current_session_user_data s now (some sid) redis db idp =
      AuthService.handleTokens s now (SESSION_KEY_NS ++ sid) r uid
        (redisExpire redis (SESSION_KEY_NS ++ sid) s.SESSION_DURATION_SECONDS)
        db idp := by
  unfold AuthService.get_current_session_user_data
  simp [hsid, hget, huid, huid0]

theorem handleTokens_expired (s : Settings) (now : Int) (key : String)
    (r : SessionRecord) (uid : Int) (redis : RedisState) (db : Db)
    (idp : IdpResult) (htok : truthyStr r.access_token = true)
    (hexp : truthyInt r.access_token_expiry = true)
    (hrem : r.access_token_expiry.getD 0 - now ≤ 0) :
    AuthService.handleTokens s now key r uid redis db idp =
      ⟨some (mkUserData (nulledRecord r) uid none),
        redisSetex redis key s.SESSION_DURATION_SECONDS
          (StoredVal.record (nulledRecord r)),
        db, 0⟩ := by
  unfold AuthService.handleTokens
  simp [htok, hexp, hrem]

theorem handleTokens_refresh_err (s : Settings) (now : Int) (key : String)
    (r : SessionRecord) (uid : Int) (redis : RedisState) (db : Db)
    (rec : UserRefreshToken) (rt : String)
    (htok : truthyStr r.access_token = true)
    (hexp : truthyInt r.access_token_expiry = true)
    (hrem0 : 0 < r.access_token_expiry.getD 0 - now)
    (hremb : r.access_token_expiry.getD 0 - now < s.REFRESH_BUFFER_SECONDS)
    (hfind : findRT db uid CTAO_PROVIDER_NAME = some rec)
    (henc : truthyStr rec.encrypted_refresh_token = true)
    (hdec : decrypt_token (mkFernetCipher s.REFRESH_TOKEN_ENCRYPTION_KEY)
        (rec.encrypted_refresh_token.getD "") = some rt) :
    AuthService.handleTokens s now key r uid redis db IdpResult.err =
      ⟨some (mkUserData r uid r.access_token), redis, db, 1⟩ := by
  have hn : ¬(r.access_token_expiry.getD 0 - now ≤ 0) := not_le.mpr hrem0
  unfold AuthService.handleTokens
  simp [htok, hexp, hn, hremb, hfind, henc, hdec]

theorem handleTokens_refresh_ok (s : Settings) (now : Int) (key : String)
    (r : SessionRecord) (uid : Int) (redis : RedisState) (db : Db)
    (rec : UserRefreshToken) (rt : String) (resp : TokenResponse)
    (htok : truthyStr r.access_token = true)
    (hexp : truthyInt r.access_token_expiry = true)
    (hrem0 : 0 < r.access_token_expiry.getD 0 - now)
    (hremb : r.access_token_expiry.getD 0 - now < s.REFRESH_BUFFER_SECONDS)
    (hfind : findRT db uid CTAO_PROVIDER_NAME = some rec)
    (henc : truthyStr rec.encrypted_refresh_token = true)
    (hdec : decrypt_token (mkFernetCipher s.REFRESH_TOKEN_ENCRYPTION_KEY)
        (rec.encrypted_refresh_token.getD "") = some rt) :
    AuthService.handleTokens s now key r uid redis db (IdpResult.ok resp) =
      ⟨some (mkUserData (refreshedRecord s now r resp) uid
          (some resp.access_token)),
        redisSetex redis key s.SESSION_DURATION_SECONDS
          (StoredVal.record (refreshedRecord s now r resp)),
        rotatedDb s now db uid resp, 1⟩ := by
  have hn : ¬(r.access_token_expiry.getD 0 - now ≤ 0) := not_le.mpr hrem0
  unfold AuthService.handleTokens
  simp [htok, hexp, hn, hremb, hfind, henc, hdec]

theorem handleTokens_no_rt (s : Settings) (now : Int) (key : String)
    (r : SessionRecord) (uid : Int) (redis : RedisState) (db : Db)
    (idp : IdpResult) (htok : truthyStr r.access_token = true)
    (hexp : truthyInt r.access_token_expiry = true)
    (hrem0 : 0 < r.access_token_expiry.getD 0 - now)
    (hremb : r.access_token_expiry.getD 0 - now < s.REFRESH_BUFFER_SECONDS)
    (hfind : findRT db uid CTAO_PROVIDER_NAME = none) :
    AuthService.handleTokens s now key r uid redis db idp =
      ⟨some (mkUserData r uid r.access_token), redis, db, 0⟩ := by
  have hn : ¬(r.access_token_expiry.getD 0 - now ≤ 0) := not_le.mpr hrem0
  unfold AuthService.handleTokens
  simp [htok, hexp, hn, hremb, hfind]

theorem handleTokens_fresh (s : Settings) (now : Int) (key : String)
    (r : SessionRecord) (uid : Int) (redis : RedisState) (db : Db)
    (idp : IdpResult)
    (hrem : s.REFRESH_BUFFER_SECONDS ≤ r.access_token_expiry.getD 0 - now)
    (hbuf : 0 < s.REFRESH_BUFFER_SECONDS) :
    AuthService.handleTokens s now key r uid redis db idp =
      ⟨some (mkUserData r uid r.access_token), redis, db, 0⟩ := by
  have h0 : ¬(r.access_token_expiry.getD 0 - now ≤ 0) := by omega
  have hb : ¬(r.access_token_expiry.getD 0 - now < s.REFRESH_BUFFER_SECONDS) :=
    not_lt.mpr hrem
  unfold AuthService.handleTokens
  by_cases ht : truthyStr r.access_token && truthyInt r.access_token_expiry
  · simp [ht, h0, hb]
  · simp [ht]

theorem handleTokens_result_uid (s : Settings) (now : Int) (key : String)
    (r : SessionRecord) (uid : Int) (redis : RedisState) (db : Db)
    (idp : IdpResult) :
    ∃ ud, (AuthService.handleTokens s now key r uid redis db idp).result =
        some ud ∧ ud.app_user_id = uid := by
  unfold AuthService.handleTokens
  dsimp only
  repeat' split
  all_goals exact ⟨_, rfl, rfl⟩

theorem authService_lookup_absent (s : Settings) (now : Int) (sid : String)
    (redis : RedisState) (db : Db) (idp : IdpResult)
    (hget : redisGet redis (SESSION_KEY_NS ++ sid) = none) :
    (AuthService.get_current_session_user_data s now (some sid) redis db
        idp).result = none := by
  unfold AuthService.get_current_session_user_data
  by_cases hsid : sid = ""
  · simp [hsid]
  · simp [hsid, hget]

theorem handleTokens_redis_cases (s : Settings) (now : Int) (key : String)
    (r : SessionRecord) (uid : Int) (redis : RedisState) (db : Db)
    (idp : IdpResult) :
    (AuthService.handleTokens s now key r uid redis db idp).redis = redis ∨
    ∃ v, (AuthService.handleTokens s now key r uid redis db idp).redis =
      redisSetex redis key s.SESSION_DURATION_SECONDS v := by
  unfold AuthService.handleTokens
  dsimp only
  repeat' split
  all_goals first
    | exact Or.inl rfl
    | exact Or.inr ⟨_, rfl⟩

theorem findRT_updateFirstRT (db : Db) (uid : Int) (p : String)
    (f : UserRefreshToken → UserRefreshToken)
    (hf : ∀ rc, (f rc).user_id = rc.user_id ∧
        (f rc).iam_provider_name = rc.iam_provider_name) :
    findRT (updateFirstRT db uid p f) uid p = (findRT db uid p).map f := by
  induction db with
  | nil => rfl
  | cons r rest ih =>
    by_cases h : (r.user_id == uid && r.iam_provider_name == p) = true
    · have hfr : ((f r).user_id == uid && (f r).iam_provider_name == p) = true := by
        rw [(hf r).1, (hf r).2]; exact h
      rw [show updateFirstRT (r :: rest) uid p f = f r :: rest by
        simp [updateFirstRT, h]]
      unfold findRT
      simp [List.find?_cons, h, hfr]
    · have hb : (r.user_id == uid && r.iam_provider_name == p) = false := by
        simpa using h
      rw [show updateFirstRT (r :: rest) uid p f = r :: updateFirstRT rest uid p f by
        simp only [updateFirstRT, if_neg h]]
      unfold findRT at ih ⊢
      simp only [List.find?_cons, hb]
      exact ih

/-! ## Claims -/

/-- Claim C4: for every non-empty plaintext string, when a valid encryption
key is configured, decrypt(encrypt(plaintext)) returns exactly the original
plaintext string — the token cipher round-trips. -/
theorem C4_cipher_roundtrip (key pt : String)
    (hkey : validFernetKey key = true) (hpt : pt ≠ "") :
    ∃ ct, encrypt_token (mkFernetCipher key) pt = some ct ∧
      decrypt_token (mkFernetCipher key) ct = some pt := by
  rw [mkFernetCipher_valid key hkey]
  refine ⟨fernetEncrypt key pt, ?_, ?_⟩
  · simp only [encrypt_token, if_neg hpt]
  · simp only [decrypt_token, if_neg (fernetEncrypt_ne_empty key pt)]
    exact fernetDecrypt_encrypt key pt

/-- Witness for C4 at a concrete valid key and plaintext. -/
theorem C4_cipher_roundtrip_witness :
    validFernetKey testKeyA = true ∧ ("rt-secret" : String) ≠ "" ∧
    ∃ ct, encrypt_token (mkFernetCipher testKeyA) "rt-secret" = some ct ∧
      decrypt_token (mkFernetCipher testKeyA) ct = some "rt-secret" :=
  ⟨by decide, by decide,
    C4_cipher_roundtrip testKeyA "rt-secret" (by decide) (by decide)⟩

/-- Claim C5: the token cipher never raises to its caller (`encrypt_token`
and `decrypt_token` are total): both return `none` on every input when no
encryption key is configured (empty string) or the configured key is
malformed, and `decrypt_token` returns `none` on every cryptographic
failure — on any input that is not an encryption under the configured key
(corrupted ciphertext), in particular on ciphertext produced under a
different key. -/
theorem C5_cipher_never_raises :
    (∀ t, encrypt_token (mkFernetCipher "") t = none ∧
      decrypt_token (mkFernetCipher "") t = none) ∧
    (∀ k t, validFernetKey k = false →
      encrypt_token (mkFernetCipher k) t = none ∧
      decrypt_token (mkFernetCipher k) t = none) ∧
    (∀ k ct, validFernetKey k = true → (∀ pt, fernetEncrypt k pt ≠ ct) →
      decrypt_token (mkFernetCipher k) ct = none) ∧
    (∀ k1 k2 pt ct, validFernetKey k1 = true → validFernetKey k2 = true →
      k1 ≠ k2 → encrypt_token (mkFernetCipher k1) pt = some ct →
      decrypt_token (mkFernetCipher k2) ct = none) := by
  refine ⟨?_, ?_, ?_, ?_⟩
  · intro t
    simp [mkFernetCipher, encrypt_token, decrypt_token]
  · intro k t hk
    by_cases hke : k = ""
    · subst hke
      simp [mkFernetCipher, encrypt_token, decrypt_token]
    · simp [mkFernetCipher, hke, hk, encrypt_token, decrypt_token]
  · intro k ct hk hno
    rw [mkFernetCipher_valid k hk]
    by_cases hct : ct = ""
    · simp [decrypt_token, hct]
    · simp only [decrypt_token, if_neg hct]
      cases hfd : fernetDecrypt k ct with
      | none => rfl
      | some pt => exact absurd (fernetDecrypt_eq_some k ct pt hfd) (hno pt)
  · intro k1 k2 pt ct h1 h2 hne henc
    rw [mkFernetCipher_valid k1 h1] at henc
    have hpt : pt ≠ "" := by
      intro hp
      subst hp
      simp [encrypt_token] at henc
    simp only [encrypt_token, if_neg hpt] at henc
    have hct : fernetEncrypt k1 pt = ct := Option.some.inj henc
    subst hct
    rw [mkFernetCipher_valid k2 h2]
    simp only [decrypt_token, if_neg (fernetEncrypt_ne_empty k1 pt)]
    exact fernetDecrypt_wrong_key k1 k2 pt h1 h2 hne

/-- Witness for C5: each failure mode at a concrete input — no configured
key, a malformed key, a ciphertext that is no encryption under the key, and
a ciphertext produced under a different key. -/
theorem C5_cipher_never_raises_witness :
    (encrypt_token (mkFernetCipher "") "x" = none ∧
      decrypt_token (mkFernetCipher "") "x" = none) ∧
    (encrypt_token (mkFernetCipher "badkey") "x" = none ∧
      decrypt_token (mkFernetCipher "badkey") "x" = none) ∧
    decrypt_token (mkFernetCipher testKeyA) "x" = none ∧
    decrypt_token (mkFernetCipher testKeyB) (fernetEncrypt testKeyA "rt") =
      none :=
  ⟨C5_cipher_never_raises.1 "x",
   C5_cipher_never_raises.2.1 "badkey" "x" (by decide),
   C5_cipher_never_raises.2.2.1 testKeyA "x" (by decide) (fun pt h => by
     have hd : (fernetEncrypt testKeyA pt).data.length =
         ("x" : String).data.length := by rw [h]
     rw [show (fernetEncrypt testKeyA pt).data =
         testKeyA.data ++ (":" : String).data ++ pt.data from by
       unfold fernetEncrypt
       rw [String.data_append, String.data_append]] at hd
     simp only [List.length_append] at hd
     have h44 : testKeyA.data.length = 44 := by decide
     have h1 : ((":" : String).data).length = 1 := by decide
     have hx : (("x" : String).data).length = 1 := by decide
     have hx2 : (['x'] : List Char).length = 1 := rfl
     omega),
   C5_cipher_never_raises.2.2.2 testKeyA testKeyB "rt"
     (fernetEncrypt testKeyA "rt") (by decide) (by decide) (by decide)
     (by decide)⟩

/-- Claim C7: for every request, the session-user lookup (both the
auth-service one and the plain `session_auth` one) returns no user — and,
being total, never raises — when the session cookie is absent, when the
session key is missing (never created, or expired away by the store), when
the stored session value is not valid JSON, and when the decoded record
lacks a truthy `app_user_id`. -/
theorem C7_lookup_no_user_cases (s : Settings) (now : Int) (redis : RedisState)
    (db : Db) (idp : IdpResult) (sid : String) (r : SessionRecord) :
    ((AuthService.get_current_session_user_data s now none redis db
        idp).result = none ∧
      (SessionAuth.get_current_session_user_data s none redis).result = none) ∧
    (sid ≠ "" → redisGet redis (SESSION_KEY_NS ++ sid) = none →
      (AuthService.get_current_session_user_data s now (some sid) redis db
          idp).result = none ∧
        (SessionAuth.get_current_session_user_data s (some sid) redis).result =
          none) ∧
    (sid ≠ "" →
      redisGet redis (SESSION_KEY_NS ++ sid) = some StoredVal.malformed →
      (AuthService.get_current_session_user_data s now (some sid) redis db
          idp).result = none ∧
        (SessionAuth.get_current_session_user_data s (some sid) redis).result =
          none) ∧
    (sid ≠ "" →
      redisGet redis (SESSION_KEY_NS ++ sid) = some (StoredVal.record r) →
      truthyInt r.app_user_id = false →
      (AuthService.get_current_session_user_data s now (some sid) redis db
          idp).result = none ∧
        (SessionAuth.get_current_session_user_data s (some sid) redis).result =
          none) := by
  refine ⟨⟨rfl, rfl⟩, ?_, ?_, ?_⟩
  · intro hsid hget
    constructor
    · unfold AuthService.get_current_session_user_data
      simp [hsid, hget]
    · unfold SessionAuth.get_current_session_user_data
      simp [hsid, hget]
  · intro hsid hget
    constructor
    · unfold AuthService.get_current_session_user_data
      simp [hsid, hget]
    · unfold SessionAuth.get_current_session_user_data
      simp [hsid, hget]
  · intro hsid hget huid
    cases hau : r.app_user_id with
    | none =>
      constructor
      · unfold AuthService.get_current_session_user_data
        simp [hsid, hget, hau]
      · unfold SessionAuth.get_current_session_user_data
        simp [hsid, hget, hau]
    | some uid =>
      have h0 : uid = 0 := by simpa [truthyInt, hau] using huid
      constructor
      · unfold AuthService.get_current_session_user_data
        simp [hsid, hget, hau, h0]
      · unfold SessionAuth.get_current_session_user_data
        simp [hsid, hget, hau, h0]

/-- Witness for C7: the missing-key, malformed-value and missing
`app_user_id` cases at concrete inputs. -/
theorem C7_lookup_no_user_cases_witness :
    ((AuthService.get_current_session_user_data {} 0 (some "s1") [] []
        IdpResult.err).result = none ∧
      (SessionAuth.get_current_session_user_data {} (some "s1") []).result =
        none) ∧
    ((AuthService.get_current_session_user_data {} 0 (some "s1")
        [(SESSION_KEY_NS ++ "s1", ⟨60, StoredVal.malformed⟩)] []
        IdpResult.err).result = none ∧
      (SessionAuth.get_current_session_user_data {} (some "s1")
        [(SESSION_KEY_NS ++ "s1", ⟨60, StoredVal.malformed⟩)]).result =
        none) ∧
    ((AuthService.get_current_session_user_data {} 0 (some "s1")
        [(SESSION_KEY_NS ++ "s1", ⟨60, StoredVal.record {}⟩)] []
        IdpResult.err).result = none ∧
      (SessionAuth.get_current_session_user_data {} (some "s1")
        [(SESSION_KEY_NS ++ "s1", ⟨60, StoredVal.record {}⟩)]).result =
        none) :=
  ⟨(C7_lookup_no_user_cases {} 0 [] [] IdpResult.err "s1" {}).2.1
      (by decide) (by decide),
   (C7_lookup_no_user_cases {} 0
       [(SESSION_KEY_NS ++ "s1", ⟨60, StoredVal.malformed⟩)] []
       IdpResult.err "s1" {}).2.2.1 (by decide) (by decide),
   (C7_lookup_no_user_cases {} 0
       [(SESSION_KEY_NS ++ "s1", ⟨60, StoredVal.record {}⟩)] []
       IdpResult.err "s1" {}).2.2.2 (by decide) (by decide) (by decide)⟩

/-- Claim C2 counterexample: the claim, quantified over the cited lookups,
fails on the legacy `src/api/auth.py` lookup (live for the basket routes):
for a session whose access token is already expired (stored expiry 900 at
`now = 1000`) and with no stored refresh token, that lookup deletes the
session key and returns no user, instead of nulling the token fields and
returning a user record. -/
theorem C2_counterexample :
    (ApiAuth.get_current_session_user_data {} 1000 (some "s1")
        [(SESSION_KEY_NS ++ "s1", ⟨28800, StoredVal.record
          { app_user_id := some 5, access_token := some "tok",
            access_token_expiry := some 900 }⟩)] [] IdpResult.err).result =
      none ∧
    redisGet (ApiAuth.get_current_session_user_data {} 1000 (some "s1")
        [(SESSION_KEY_NS ++ "s1", ⟨28800, StoredVal.record
          { app_user_id := some 5, access_token := some "tok",
            access_token_expiry := some 900 }⟩)] [] IdpResult.err).redis
      (SESSION_KEY_NS ++ "s1") = none ∧
    (ApiAuth.get_current_session_user_data {} 1000 (some "s1")
        [(SESSION_KEY_NS ++ "s1", ⟨28800, StoredVal.record
          { app_user_id := some 5, access_token := some "tok",
            access_token_expiry := some 900 }⟩)] [] IdpResult.err).idpCalls =
      0 := by
  decide

/-- Claim C2 (amended): restricted to the auth-service lookup
(`src/auth_service/routers/auth.py` — the legacy api lookup deletes the
session instead, see the counterexample) and to sessions whose stored expiry
is truthy (nonzero; a zero expiry skips the token handling entirely): for
every session whose access token is already expired (`expiry - now ≤ 0`) and
with no stored refresh token, a lookup does not raise (totality), makes no
IdP call, does not delete the session record, nulls out the access-token
fields persisting the truncated record, and returns a user record with the
original `app_user_id` and a null access token. -/
theorem C2_expired_no_rt (s : Settings) (now : Int) (sid : String)
    (redis : RedisState) (db : Db) (idp : IdpResult) (r : SessionRecord)
    (uid : Int) (tok : String) (e : Int)
    (hsid : sid ≠ "")
    (hget : redisGet redis (SESSION_KEY_NS ++ sid) = some (StoredVal.record r))
    (huid : r.app_user_id = some uid) (huid0 : uid ≠ 0)
    (htok : r.access_token = some tok) (htokne : tok ≠ "")
    (hexp : r.access_token_expiry = some e) (he0 : e ≠ 0)
    (hrem : e - now ≤ 0)
    (_hnort : findRT db uid CTAO_PROVIDER_NAME = none) :
    (AuthService.get_current_session_user_data s now (some sid) redis db
        idp).result = some (mkUserData (nulledRecord r) uid none) ∧
    redisGet (AuthService.get_current_session_user_data s now (some sid) redis
        db idp).redis (SESSION_KEY_NS ++ sid) =
      some (StoredVal.record (nulledRecord r)) ∧
    (AuthService.get_current_session_user_data s now (some sid) redis db
        idp).db = db ∧
    (AuthService.get_current_session_user_data s now (some sid) redis db
        idp).idpCalls = 0 := by
  have hlk := authService_lookup_valid_record s now sid redis db idp r uid
    hsid hget huid huid0
  have htok' : truthyStr r.access_token = true := by
    simp [truthyStr, htok, htokne]
  have hexp' : truthyInt r.access_token_expiry = true := by
    simp [truthyInt, hexp, he0]
  have hrem' : r.access_token_expiry.getD 0 - now ≤ 0 := by
    rw [hexp]
    simpa using hrem
  have hht := handleTokens_expired s now (SESSION_KEY_NS ++ sid) r uid
    (redisExpire redis (SESSION_KEY_NS ++ sid) s.SESSION_DURATION_SECONDS)
    db idp htok' hexp' hrem'
  rw [hlk, hht]
  exact ⟨rfl, redisGet_setex_self _ _ _ _, rfl, rfl⟩

/-- Witness for C2 (amended) at a concrete expired session with no stored
refresh token. -/
theorem C2_expired_no_rt_witness :
    (AuthService.get_current_session_user_data {} 1000 (some "s1")
        [(SESSION_KEY_NS ++ "s1", ⟨28800, StoredVal.record
          { app_user_id := some 5, access_token := some "tok",
            access_token_expiry := some 900 }⟩)] [] IdpResult.err).result =
      some (mkUserData (nulledRecord
        { app_user_id := some 5, access_token := some "tok",
          access_token_expiry := some 900 }) 5 none) ∧
    redisGet (AuthService.get_current_session_user_data {} 1000 (some "s1")
        [(SESSION_KEY_NS ++ "s1", ⟨28800, StoredVal.record
          { app_user_id := some 5, access_token := some "tok",
            access_token_expiry := some 900 }⟩)] [] IdpResult.err).redis
      (SESSION_KEY_NS ++ "s1") =
      some (StoredVal.record (nulledRecord
        { app_user_id := some 5, access_token := some "tok",
          access_token_expiry := some 900 })) ∧
    (AuthService.get_current_session_user_data {} 1000 (some "s1")
        [(SESSION_KEY_NS ++ "s1", ⟨28800, StoredVal.record
          { app_user_id := some 5, access_token := some "tok",
            access_token_expiry := some 900 }⟩)] [] IdpResult.err).db = [] ∧
    (AuthService.get_current_session_user_data {} 1000 (some "s1")
        [(SESSION_KEY_NS ++ "s1", ⟨28800, StoredVal.record
          { app_user_id := some 5, access_token := some "tok",
            access_token_expiry := some 900 }⟩)] [] IdpResult.err).idpCalls =
      0 :=
  C2_expired_no_rt {} 1000 "s1"
    [(SESSION_KEY_NS ++ "s1", ⟨28800, StoredVal.record
      { app_user_id := some 5, access_token := some "tok",
        access_token_expiry := some 900 }⟩)] [] IdpResult.err
    { app_user_id := some 5, access_token := some "tok",
      access_token_expiry := some 900 } 5 "tok" 900
    (by decide) (by decide) (by decide) (by decide) (by decide) (by decide)
    (by decide) (by decide) (by decide) (by decide)

/-- Claim C1 counterexample: on the auth-service lookup, a near-expiry
session (expiry 1100 at `now = 1000`, buffer 300) with a decryptable stored
refresh token whose IdP refresh call raises makes exactly one IdP call and
then leaves the session record completely unchanged — the access-token
fields are NOT set to null and no truncated record is persisted (the stored
record still carries `access_token = some "tok"`), contradicting the claim.
(The other cited lookup, legacy `src/api/auth.py`, deletes the session on
this path, also contradicting the claim.) -/
theorem C1_counterexample :
    (AuthService.get_current_session_user_data
        { REFRESH_TOKEN_ENCRYPTION_KEY := testKeyA } 1000 (some "s1")
        [(SESSION_KEY_NS ++ "s1", ⟨28800, StoredVal.record
          { app_user_id := some 5, access_token := some "tok",
            access_token_expiry := some 1100 }⟩)]
        [{ user_id := 5, iam_provider_name := CTAO_PROVIDER_NAME,
           encrypted_refresh_token := some (fernetEncrypt testKeyA "rt") }]
        IdpResult.err) =
      ⟨some (mkUserData
          { app_user_id := some 5, access_token := some "tok",
            access_token_expiry := some 1100 } 5 (some "tok")),
        [(SESSION_KEY_NS ++ "s1", ⟨28800, StoredVal.record
          { app_user_id := some 5, access_token := some "tok",
            access_token_expiry := some 1100 }⟩)],
        [{ user_id := 5, iam_provider_name := CTAO_PROVIDER_NAME,
           encrypted_refresh_token := some (fernetEncrypt testKeyA "rt") }],
        1⟩ ∧
    redisGet (AuthService.get_current_session_user_data
        { REFRESH_TOKEN_ENCRYPTION_KEY := testKeyA } 1000 (some "s1")
        [(SESSION_KEY_NS ++ "s1", ⟨28800, StoredVal.record
          { app_user_id := some 5, access_token := some "tok",
            access_token_expiry := some 1100 }⟩)]
        [{ user_id := 5, iam_provider_name := CTAO_PROVIDER_NAME,
           encrypted_refresh_token := some (fernetEncrypt testKeyA "rt") }]
        IdpResult.err).redis (SESSION_KEY_NS ++ "s1") ≠
      some (StoredVal.record (nulledRecord
        { app_user_id := some 5, access_token := some "tok",
          access_token_expiry := some 1100 })) := by
  constructor
  · decide
  · decide

/-- Claim C1 (amended): for every auth-service session lookup that enters the
near-expiry state (`0 < expiry - now < refresh buffer`) and whose refresh
attempt fails because the IdP call raises, the session record is not deleted
and the user is not logged out; the session record is left entirely
unchanged in the store (only its TTL is renewed) — the access-token fields
are not nulled and nothing is persisted — and the returned user record
carries the preserved `app_user_id` together with the old access token.
(The legacy `src/api/auth.py` lookup instead deletes the session here.) -/
theorem C1_refresh_failure_keeps_session (s : Settings) (now : Int)
    (sid : String) (redis : RedisState) (db : Db) (r : SessionRecord)
    (uid : Int) (tok : String) (e : Int) (rec : UserRefreshToken) (rt : String)
    (hnow : 0 ≤ now) (hsid : sid ≠ "")
    (hget : redisGet redis (SESSION_KEY_NS ++ sid) = some (StoredVal.record r))
    (huid : r.app_user_id = some uid) (huid0 : uid ≠ 0)
    (htok : r.access_token = some tok) (htokne : tok ≠ "")
    (hexp : r.access_token_expiry = some e)
    (hrem0 : 0 < e - now) (hremb : e - now < s.REFRESH_BUFFER_SECONDS)
    (hfind : findRT db uid CTAO_PROVIDER_NAME = some rec)
    (henc : truthyStr rec.encrypted_refresh_token = true)
    (hdec : decrypt_token (mkFernetCipher s.REFRESH_TOKEN_ENCRYPTION_KEY)
        (rec.encrypted_refresh_token.getD "") = some rt) :
    AuthService.get_current_session_user_data s now (some sid) redis db
        IdpResult.err =
      ⟨some (mkUserData r uid (some tok)),
        redisExpire redis (SESSION_KEY_NS ++ sid) s.SESSION_DURATION_SECONDS,
        db, 1⟩ ∧
    redisGet (AuthService.get_current_session_user_data s now (some sid) redis
        db IdpResult.err).redis (SESSION_KEY_NS ++ sid) =
      some (StoredVal.record r) := by
  have hlk := authService_lookup_valid_record s now sid redis db IdpResult.err
    r uid hsid hget huid huid0
  have htok' : truthyStr r.access_token = true := by
    simp [truthyStr, htok, htokne]
  have he0 : e ≠ 0 := by omega
  have hexp' : truthyInt r.access_token_expiry = true := by
    simp [truthyInt, hexp, he0]
  have hrem0' : 0 < r.access_token_expiry.getD 0 - now := by
    rw [hexp]
    simpa using hrem0
  have hremb' : r.access_token_expiry.getD 0 - now < s.REFRESH_BUFFER_SECONDS := by
    rw [hexp]
    simpa using hremb
  have hht := handleTokens_refresh_err s now (SESSION_KEY_NS ++ sid) r uid
    (redisExpire redis (SESSION_KEY_NS ++ sid) s.SESSION_DURATION_SECONDS)
    db rec rt htok' hexp' hrem0' hremb' hfind henc hdec
  rw [hlk, hht]
  constructor
  · rw [htok]
  · show redisGet (redisExpire redis (SESSION_KEY_NS ++ sid)
        s.SESSION_DURATION_SECONDS) (SESSION_KEY_NS ++ sid) = _
    rw [redisGet_expire_self]
    exact hget

/-- Witness for C1 (amended) at a concrete near-expiry session whose IdP
refresh raises. -/
theorem C1_refresh_failure_keeps_session_witness :
    AuthService.get_current_session_user_data
        { REFRESH_TOKEN_ENCRYPTION_KEY := testKeyA } 1000 (some "s1")
        [(SESSION_KEY_NS ++ "s1", ⟨7, StoredVal.record
          { app_user_id := some 5, access_token := some "tok",
            access_token_expiry := some 1100 }⟩)]
        [{ user_id := 5, iam_provider_name := CTAO_PROVIDER_NAME,
           encrypted_refresh_token := some (fernetEncrypt testKeyA "rt") }]
        IdpResult.err =
      ⟨some (mkUserData
          { app_user_id := some 5, access_token := some "tok",
            access_token_expiry := some 1100 } 5 (some "tok")),
        redisExpire
          [(SESSION_KEY_NS ++ "s1", ⟨7, StoredVal.record
            { app_user_id := some 5, access_token := some "tok",
              access_token_expiry := some 1100 }⟩)]
          (SESSION_KEY_NS ++ "s1") 28800,
        [{ user_id := 5, iam_provider_name := CTAO_PROVIDER_NAME,
           encrypted_refresh_token := some (fernetEncrypt testKeyA "rt") }],
        1⟩ ∧
    redisGet (AuthService.get_current_session_user_data
        { REFRESH_TOKEN_ENCRYPTION_KEY := testKeyA } 1000 (some "s1")
        [(SESSION_KEY_NS ++ "s1", ⟨7, StoredVal.record
          { app_user_id := some 5, access_token := some "tok",
            access_token_expiry := some 1100 }⟩)]
        [{ user_id := 5, iam_provider_name := CTAO_PROVIDER_NAME,
           encrypted_refresh_token := some (fernetEncrypt testKeyA "rt") }]
        IdpResult.err).redis (SESSION_KEY_NS ++ "s1") =
      some (StoredVal.record
        { app_user_id := some 5, access_token := some "tok",
          access_token_expiry := some 1100 }) :=
  C1_refresh_failure_keeps_session
    { REFRESH_TOKEN_ENCRYPTION_KEY := testKeyA } 1000 "s1"
    [(SESSION_KEY_NS ++ "s1", ⟨7, StoredVal.record
      { app_user_id := some 5, access_token := some "tok",
        access_token_expiry := some 1100 }⟩)]
    [{ user_id := 5, iam_provider_name := CTAO_PROVIDER_NAME,
       encrypted_refresh_token := some (fernetEncrypt testKeyA "rt") }]
    { app_user_id := some 5, access_token := some "tok",
      access_token_expiry := some 1100 } 5 "tok" 1100
    { user_id := 5, iam_provider_name := CTAO_PROVIDER_NAME,
      encrypted_refresh_token := some (fernetEncrypt testKeyA "rt") } "rt"
    (by decide) (by decide) (by decide) (by decide) (by decide) (by decide)
    (by decide) (by decide) (by decide) (by decide) (by decide) (by decide)
    (by decide)

/-- Claim C3 counterexample: at `now = 1000` with stored expiry 1299
(remaining 299, inside the 300 s buffer) and a decryptable stored refresh
token, an IdP success granting `expires_in = 1` makes exactly one refresh
call but stores `access_token_expiry = 1001`, which is NOT strictly greater
than the previous expiry 1299 — refuting the claim's unconditional "strictly
greater". -/
theorem C3_counterexample :
    (AuthService.get_current_session_user_data
        { REFRESH_TOKEN_ENCRYPTION_KEY := testKeyA } 1000 (some "s1")
        [(SESSION_KEY_NS ++ "s1", ⟨28800, StoredVal.record
          { app_user_id := some 5, access_token := some "tok",
            access_token_expiry := some 1299 }⟩)]
        [{ user_id := 5, iam_provider_name := CTAO_PROVIDER_NAME,
           encrypted_refresh_token := some (fernetEncrypt testKeyA "rt") }]
        (IdpResult.ok { access_token := "newtok", expires_in := some 1 })
      ).idpCalls = 1 ∧
    redisGet (AuthService.get_current_session_user_data
        { REFRESH_TOKEN_ENCRYPTION_KEY := testKeyA } 1000 (some "s1")
        [(SESSION_KEY_NS ++ "s1", ⟨28800, StoredVal.record
          { app_user_id := some 5, access_token := some "tok",
            access_token_expiry := some 1299 }⟩)]
        [{ user_id := 5, iam_provider_name := CTAO_PROVIDER_NAME,
           encrypted_refresh_token := some (fernetEncrypt testKeyA "rt") }]
        (IdpResult.ok { access_token := "newtok", expires_in := some 1 })
      ).redis (SESSION_KEY_NS ++ "s1") =
      some (StoredVal.record
        { app_user_id := some 5, access_token := some "newtok",
          access_token_expiry := some 1001 }) ∧
    ¬((1001 : Int) > 1299) := by
  refine ⟨by decide, by decide, by decide⟩

/-- Claim C3 (amended): the refresh decision is an exact threshold on
`remaining = access_token_expiry - now` for the auth-service lookup.
(a) With `remaining ≥ refresh buffer` (buffer positive) the lookup makes no
refresh call and leaves the stored record unchanged, returning it as is.
(b) With a truthy access token, `0 < remaining < buffer` and a valid
(decryptable) stored refresh token, the lookup makes exactly one refresh
call and, on IdP success, stores `access_token_expiry = now + granted`,
where `granted` is the granted lifetime (`expires_in`, default 3600,
overridden by a truthy fake setting); that new expiry is strictly greater
than the previous one whenever `granted > remaining` (e.g. the default
3600 against a sub-buffer remaining) — but not unconditionally, see the
counterexample. -/
theorem C3_refresh_threshold (s : Settings) (now : Int) (sid : String)
    (redis : RedisState) (db : Db) (idp : IdpResult) (r : SessionRecord)
    (uid : Int) (tok : String) (e : Int) (rec : UserRefreshToken)
    (rt : String) (resp : TokenResponse)
    (hsid : sid ≠ "")
    (hget : redisGet redis (SESSION_KEY_NS ++ sid) = some (StoredVal.record r))
    (huid : r.app_user_id = some uid) (huid0 : uid ≠ 0) :
    (r.access_token_expiry = some e →
      s.REFRESH_BUFFER_SECONDS ≤ e - now → 0 < s.REFRESH_BUFFER_SECONDS →
      (AuthService.get_current_session_user_data s now (some sid) redis db
          idp).idpCalls = 0 ∧
      redisGet (AuthService.get_current_session_user_data s now (some sid)
          redis db idp).redis (SESSION_KEY_NS ++ sid) =
        some (StoredVal.record r) ∧
      (AuthService.get_current_session_user_data s now (some sid) redis db
          idp).result = some (mkUserData r uid r.access_token)) ∧
    (r.access_token = some tok → tok ≠ "" → r.access_token_expiry = some e →
      0 ≤ now → 0 < e - now → e - now < s.REFRESH_BUFFER_SECONDS →
      findRT db uid CTAO_PROVIDER_NAME = some rec →
      truthyStr rec.encrypted_refresh_token = true →
      decrypt_token (mkFernetCipher s.REFRESH_TOKEN_ENCRYPTION_KEY)
        (rec.encrypted_refresh_token.getD "") = some rt →
      (AuthService.get_current_session_user_data s now (some sid) redis db
          (IdpResult.ok resp)).idpCalls = 1 ∧
      redisGet (AuthService.get_current_session_user_data s now (some sid)
          redis db (IdpResult.ok resp)).redis (SESSION_KEY_NS ++ sid) =
        some (StoredVal.record (refreshedRecord s now r resp)) ∧
      (refreshedRecord s now r resp).access_token_expiry = some (now +
        (if truthyInt s.OIDC_FAKE_EXPIRES_IN then s.OIDC_FAKE_EXPIRES_IN.getD 0
         else resp.expires_in.getD 3600)) ∧
      (e - now <
          (if truthyInt s.OIDC_FAKE_EXPIRES_IN then
            s.OIDC_FAKE_EXPIRES_IN.getD 0 else resp.expires_in.getD 3600) →
        e < now +
          (if truthyInt s.OIDC_FAKE_EXPIRES_IN then
            s.OIDC_FAKE_EXPIRES_IN.getD 0 else resp.expires_in.getD 3600))) := by
  constructor
  · intro hexp hrem hbuf
    have hlk := authService_lookup_valid_record s now sid redis db idp r uid
      hsid hget huid huid0
    have hrem' : s.REFRESH_BUFFER_SECONDS ≤ r.access_token_expiry.getD 0 - now := by
      rw [hexp]
      simpa using hrem
    have hht := handleTokens_fresh s now (SESSION_KEY_NS ++ sid) r uid
      (redisExpire redis (SESSION_KEY_NS ++ sid) s.SESSION_DURATION_SECONDS)
      db idp hrem' hbuf
    rw [hlk, hht]
    refine ⟨rfl, ?_, rfl⟩
    show redisGet (redisExpire redis (SESSION_KEY_NS ++ sid)
        s.SESSION_DURATION_SECONDS) (SESSION_KEY_NS ++ sid) = _
    rw [redisGet_expire_self]
    exact hget
  · intro htok htokne hexp hnow hrem0 hremb hfind henc hdec
    have hlk := authService_lookup_valid_record s now sid redis db
      (IdpResult.ok resp) r uid hsid hget huid huid0
    have htok' : truthyStr r.access_token = true := by
      simp [truthyStr, htok, htokne]
    have he0 : e ≠ 0 := by omega
    have hexp' : truthyInt r.access_token_expiry = true := by
      simp [truthyInt, hexp, he0]
    have hrem0' : 0 < r.access_token_expiry.getD 0 - now := by
      rw [hexp]
      simpa using hrem0
    have hremb' : r.access_token_expiry.getD 0 - now < s.REFRESH_BUFFER_SECONDS := by
      rw [hexp]
      simpa using hremb
    have hht := handleTokens_refresh_ok s now (SESSION_KEY_NS ++ sid) r uid
      (redisExpire redis (SESSION_KEY_NS ++ sid) s.SESSION_DURATION_SECONDS)
      db rec rt resp htok' hexp' hrem0' hremb' hfind henc hdec
    rw [hlk, hht]
    refine ⟨rfl, ?_, rfl, ?_⟩
    · show redisGet (redisSetex (redisExpire redis (SESSION_KEY_NS ++ sid)
          s.SESSION_DURATION_SECONDS) (SESSION_KEY_NS ++ sid)
          s.SESSION_DURATION_SECONDS
          (StoredVal.record (refreshedRecord s now r resp))) (SESSION_KEY_NS ++ sid) = _
      exact redisGet_setex_self _ _ _ _
    · intro hgt
      omega

/-- Witness for C3 (amended): at `now = 1000`, buffer 300: with stored expiry
1301 (remaining 301) no refresh call fires; with stored expiry 1299
(remaining 299) and a valid stored refresh token one refresh call fires and
the granted default lifetime 3600 yields a strictly larger expiry. -/
theorem C3_refresh_threshold_witness :
    (AuthService.get_current_session_user_data
        { REFRESH_TOKEN_ENCRYPTION_KEY := testKeyA } 1000 (some "s1")
        [(SESSION_KEY_NS ++ "s1", ⟨28800, StoredVal.record
          { app_user_id := some 5, access_token := some "tok",
            access_token_expiry := some 1301 }⟩)]
        [{ user_id := 5, iam_provider_name := CTAO_PROVIDER_NAME,
           encrypted_refresh_token := some (fernetEncrypt testKeyA "rt") }]
        IdpResult.err).idpCalls = 0 ∧
    (AuthService.get_current_session_user_data
        { REFRESH_TOKEN_ENCRYPTION_KEY := testKeyA } 1000 (some "s1")
        [(SESSION_KEY_NS ++ "s1", ⟨28800, StoredVal.record
          { app_user_id := some 5, access_token := some "tok",
            access_token_expiry := some 1299 }⟩)]
        [{ user_id := 5, iam_provider_name := CTAO_PROVIDER_NAME,
           encrypted_refresh_token := some (fernetEncrypt testKeyA "rt") }]
        (IdpResult.ok { access_token := "newtok", expires_in := some 3600 })
      ).idpCalls = 1 ∧
    (1299 : Int) < 1000 + 3600 := by
  refine ⟨?_, ?_, ?_⟩
  · exact ((C3_refresh_threshold
      { REFRESH_TOKEN_ENCRYPTION_KEY := testKeyA } 1000 "s1"
      [(SESSION_KEY_NS ++ "s1", ⟨28800, StoredVal.record
        { app_user_id := some 5, access_token := some "tok",
          access_token_expiry := some 1301 }⟩)]
      [{ user_id := 5, iam_provider_name := CTAO_PROVIDER_NAME,
         encrypted_refresh_token := some (fernetEncrypt testKeyA "rt") }]
      IdpResult.err
      { app_user_id := some 5, access_token := some "tok",
        access_token_expiry := some 1301 } 5 "tok" 1301
      { user_id := 5, iam_provider_name := CTAO_PROVIDER_NAME,
        encrypted_refresh_token := some (fernetEncrypt testKeyA "rt") } "rt"
      { access_token := "newtok", expires_in := some 3600 }
      (by decide) (by decide) (by decide) (by decide)).1
      (by decide) (by decide) (by decide)).1
  · exact ((C3_refresh_threshold
      { REFRESH_TOKEN_ENCRYPTION_KEY := testKeyA } 1000 "s1"
      [(SESSION_KEY_NS ++ "s1", ⟨28800, StoredVal.record
        { app_user_id := some 5, access_token := some "tok",
          access_token_expiry := some 1299 }⟩)]
      [{ user_id := 5, iam_provider_name := CTAO_PROVIDER_NAME,
         encrypted_refresh_token := some (fernetEncrypt testKeyA "rt") }]
      IdpResult.err
      { app_user_id := some 5, access_token := some "tok",
        access_token_expiry := some 1299 } 5 "tok" 1299
      { user_id := 5, iam_provider_name := CTAO_PROVIDER_NAME,
        encrypted_refresh_token := some (fernetEncrypt testKeyA "rt") } "rt"
      { access_token := "newtok", expires_in := some 3600 }
      (by decide) (by decide) (by decide) (by decide)).2
      (by decide) (by decide) (by decide) (by decide) (by decide) (by decide)
      (by decide) (by decide) (by decide)).1
  · exact ((C3_refresh_threshold
      { REFRESH_TOKEN_ENCRYPTION_KEY := testKeyA } 1000 "s1"
      [(SESSION_KEY_NS ++ "s1", ⟨28800, StoredVal.record
        { app_user_id := some 5, access_token := some "tok",
          access_token_expiry := some 1299 }⟩)]
      [{ user_id := 5, iam_provider_name := CTAO_PROVIDER_NAME,
         encrypted_refresh_token := some (fernetEncrypt testKeyA "rt") }]
      IdpResult.err
      { app_user_id := some 5, access_token := some "tok",
        access_token_expiry := some 1299 } 5 "tok" 1299
      { user_id := 5, iam_provider_name := CTAO_PROVIDER_NAME,
        encrypted_refresh_token := some (fernetEncrypt testKeyA "rt") } "rt"
      { access_token := "newtok", expires_in := some 3600 }
      (by decide) (by decide) (by decide) (by decide)).2
      (by decide) (by decide) (by decide) (by decide) (by decide) (by decide)
      (by decide) (by decide) (by decide)).2.2.2 (by decide)

theorem findRT_rotatedDb (s : Settings) (now : Int) (db : Db) (uid : Int)
    (resp : TokenResponse) (nrt : String) (rec : UserRefreshToken)
    (hnrt : resp.refresh_token = some nrt)
    (hfind : findRT db uid CTAO_PROVIDER_NAME = some rec) :
    findRT (rotatedDb s now db uid resp) uid CTAO_PROVIDER_NAME =
      some (match encrypt_token (mkFernetCipher s.REFRESH_TOKEN_ENCRYPTION_KEY)
          nrt with
        | some enc => { rec with
            encrypted_refresh_token := some enc
            last_used_at := some now }
        | none => { rec with last_used_at := some now }) := by
  cases hE : encrypt_token (mkFernetCipher s.REFRESH_TOKEN_ENCRYPTION_KEY) nrt with
  | none =>
    unfold rotatedDb
    rw [hnrt]
    dsimp only
    rw [hE]
    dsimp only
    rw [findRT_updateFirstRT db uid CTAO_PROVIDER_NAME
      (fun rc => { rc with last_used_at := some now })
      (fun rc => ⟨rfl, rfl⟩), hfind]
    rfl
  | some ct =>
    unfold rotatedDb
    rw [hnrt]
    dsimp only
    rw [hE]
    dsimp only
    rw [findRT_updateFirstRT db uid CTAO_PROVIDER_NAME
      (fun rc => { rc with
        encrypted_refresh_token := some ct
        last_used_at := some now })
      (fun rc => ⟨rfl, rfl⟩), hfind]
    rfl

/-- Claim C9: during token rotation the stored `encrypted_refresh_token` is
never overwritten with null. For every refresh (auth-service lookup, IdP
success) whose response includes a new refresh token: the rotated row still
exists, its `last_used_at` is updated regardless, its stored ciphertext is
non-null, if encrypting the new token returns null the previously stored
ciphertext is left unchanged, and after the rotation the stored value is
either the newly encrypted token or the prior ciphertext. -/
theorem C9_rotation_never_nulls (s : Settings) (now : Int) (sid : String)
    (redis : RedisState) (db : Db) (r : SessionRecord) (uid : Int)
    (tok : String) (e : Int) (rec : UserRefreshToken) (rt : String)
    (resp : TokenResponse) (nrt : String)
    (hnow : 0 ≤ now) (hsid : sid ≠ "")
    (hget : redisGet redis (SESSION_KEY_NS ++ sid) = some (StoredVal.record r))
    (huid : r.app_user_id = some uid) (huid0 : uid ≠ 0)
    (htok : r.access_token = some tok) (htokne : tok ≠ "")
    (hexp : r.access_token_expiry = some e)
    (hrem0 : 0 < e - now) (hremb : e - now < s.REFRESH_BUFFER_SECONDS)
    (hfind : findRT db uid CTAO_PROVIDER_NAME = some rec)
    (henc : truthyStr rec.encrypted_refresh_token = true)
    (hdec : decrypt_token (mkFernetCipher s.REFRESH_TOKEN_ENCRYPTION_KEY)
        (rec.encrypted_refresh_token.getD "") = some rt)
    (hnrt : resp.refresh_token = some nrt) :
    ∃ rec2, findRT (AuthService.get_current_session_user_data s now (some sid)
        redis db (IdpResult.ok resp)).db uid CTAO_PROVIDER_NAME = some rec2 ∧
      rec2.last_used_at = some now ∧
      rec2.encrypted_refresh_token ≠ none ∧
      (encrypt_token (mkFernetCipher s.REFRESH_TOKEN_ENCRYPTION_KEY) nrt =
          none →
        rec2.encrypted_refresh_token = rec.encrypted_refresh_token) ∧
      (rec2.encrypted_refresh_token = rec.encrypted_refresh_token ∨
        ∃ ct, encrypt_token (mkFernetCipher s.REFRESH_TOKEN_ENCRYPTION_KEY)
            nrt = some ct ∧
          rec2.encrypted_refresh_token = some ct) := by
  have hlk := authService_lookup_valid_record s now sid redis db
    (IdpResult.ok resp) r uid hsid hget huid huid0
  have htok' : truthyStr r.access_token = true := by
    simp [truthyStr, htok, htokne]
  have he0 : e ≠ 0 := by omega
  have hexp' : truthyInt r.access_token_expiry = true := by
    simp [truthyInt, hexp, he0]
  have hrem0' : 0 < r.access_token_expiry.getD 0 - now := by
    rw [hexp]
    simpa using hrem0
  have hremb' : r.access_token_expiry.getD 0 - now < s.REFRESH_BUFFER_SECONDS := by
    rw [hexp]
    simpa using hremb
  have hht := handleTokens_refresh_ok s now (SESSION_KEY_NS ++ sid) r uid
    (redisExpire redis (SESSION_KEY_NS ++ sid) s.SESSION_DURATION_SECONDS)
    db rec rt resp htok' hexp' hrem0' hremb' hfind henc hdec
  have hne : rec.encrypted_refresh_token ≠ none := by
    intro h0
    rw [h0] at henc
    simp [truthyStr] at henc
  rw [hlk, hht]
  dsimp only
  rw [findRT_rotatedDb s now db uid resp nrt rec hnrt hfind]
  cases hE : encrypt_token (mkFernetCipher s.REFRESH_TOKEN_ENCRYPTION_KEY) nrt with
  | none =>
    refine ⟨{ rec with last_used_at := some now }, rfl, rfl, hne, fun _ => rfl,
      Or.inl rfl⟩
  | some ct =>
    refine ⟨{ rec with
        encrypted_refresh_token := some ct
        last_used_at := some now }, rfl, rfl, Option.some_ne_none ct, ?_,
      Or.inr ⟨ct, rfl, rfl⟩⟩
    intro h0
    cases h0

/-- Witness for C9 at a concrete successful refresh whose response carries a
new refresh token. -/
theorem C9_rotation_never_nulls_witness :
    ∃ rec2, findRT (AuthService.get_current_session_user_data
        { REFRESH_TOKEN_ENCRYPTION_KEY := testKeyA } 1000 (some "s1")
        [(SESSION_KEY_NS ++ "s1", ⟨28800, StoredVal.record
          { app_user_id := some 5, access_token := some "tok",
            access_token_expiry := some 1100 }⟩)]
        [{ user_id := 5, iam_provider_name := CTAO_PROVIDER_NAME,
           encrypted_refresh_token := some (fernetEncrypt testKeyA "rt") }]
        (IdpResult.ok { access_token := "newtok", expires_in := some 3600,
                        refresh_token := some "newrt" })).db 5
        CTAO_PROVIDER_NAME =
        some rec2 ∧
      rec2.last_used_at = some 1000 ∧
      rec2.encrypted_refresh_token ≠ none ∧
      (encrypt_token (mkFernetCipher testKeyA) "newrt" = none →
        rec2.encrypted_refresh_token = some (fernetEncrypt testKeyA "rt")) ∧
      (rec2.encrypted_refresh_token = some (fernetEncrypt testKeyA "rt") ∨
        ∃ ct, encrypt_token (mkFernetCipher testKeyA) "newrt" = some ct ∧
          rec2.encrypted_refresh_token = some ct) :=
  C9_rotation_never_nulls { REFRESH_TOKEN_ENCRYPTION_KEY := testKeyA } 1000
    "s1"
    [(SESSION_KEY_NS ++ "s1", ⟨28800, StoredVal.record
      { app_user_id := some 5, access_token := some "tok",
        access_token_expiry := some 1100 }⟩)]
    [{ user_id := 5, iam_provider_name := CTAO_PROVIDER_NAME,
       encrypted_refresh_token := some (fernetEncrypt testKeyA "rt") }]
    { app_user_id := some 5, access_token := some "tok",
      access_token_expiry := some 1100 } 5 "tok" 1100
    { user_id := 5, iam_provider_name := CTAO_PROVIDER_NAME,
      encrypted_refresh_token := some (fernetEncrypt testKeyA "rt") } "rt"
    { access_token := "newtok", expires_in := some 3600,
                      refresh_token := some "newrt" } "newrt"
    (by decide) (by decide) (by decide) (by decide) (by decide) (by decide)
    (by decide) (by decide) (by decide) (by decide) (by decide) (by decide)
    (by decide) (by decide)

/-- Claim C8: for every logout request carrying a session cookie bound to a
valid session record (truthy `app_user_id`), the logout operation deletes
the session key from the store and deletes every refresh-token row belonging
to that session's user, so a subsequent lookup presenting the same (now
stale) cookie returns no user. -/
theorem C8_logout_clears_session (s : Settings) (now : Int) (sid : String)
    (redis : RedisState) (db : Db) (idp : IdpResult) (r : SessionRecord)
    (uid : Int)
    (hsid : sid ≠ "")
    (hget : redisGet redis (SESSION_KEY_NS ++ sid) = some (StoredVal.record r))
    (huid : r.app_user_id = some uid) (huid0 : uid ≠ 0) :
    redisGet (logout_session s now (some sid) redis db idp).redis
        (SESSION_KEY_NS ++ sid) = none ∧
    (∀ rc ∈ (logout_session s now (some sid) redis db idp).db,
      rc.user_id ≠ uid) ∧
    (∀ now2 db2 idp2,
      (AuthService.get_current_session_user_data s now2 (some sid)
        (logout_session s now (some sid) redis db idp).redis db2
        idp2).result = none) := by
  have hlk := authService_lookup_valid_record s now sid redis db idp r uid
    hsid hget huid huid0
  obtain ⟨ud, hres, hudid⟩ := handleTokens_result_uid s now
    (SESSION_KEY_NS ++ sid) r uid
    (redisExpire redis (SESSION_KEY_NS ++ sid) s.SESSION_DURATION_SECONDS)
    db idp
  have hlog : logout_session s now (some sid) redis db idp =
      ⟨redisDel (AuthService.handleTokens s now (SESSION_KEY_NS ++ sid) r uid
          (redisExpire redis (SESSION_KEY_NS ++ sid)
            s.SESSION_DURATION_SECONDS) db idp).redis (SESSION_KEY_NS ++ sid),
        (AuthService.handleTokens s now (SESSION_KEY_NS ++ sid) r uid
          (redisExpire redis (SESSION_KEY_NS ++ sid)
            s.SESSION_DURATION_SECONDS) db idp).db.filter
          (fun rc => !(rc.user_id == uid))⟩ := by
    unfold logout_session
    rw [hlk]
    dsimp only
    rw [hres]
    dsimp only
    rw [hudid]
    simp [hsid, huid0]
  rw [hlog]
  refine ⟨redisGet_del_self _ _, ?_, ?_⟩
  · intro rc hmem
    have := (List.mem_filter.mp hmem).2
    simpa using this
  · intro now2 db2 idp2
    exact authService_lookup_absent s now2 sid _ db2 idp2
      (redisGet_del_self _ _)

/-- Witness for C8 at a concrete session and a one-row refresh-token table. -/
theorem C8_logout_clears_session_witness :
    redisGet (logout_session {} 0 (some "s1")
        [(SESSION_KEY_NS ++ "s1", ⟨60, StoredVal.record
          { app_user_id := some 7 }⟩)]
        [{ user_id := 7, iam_provider_name := CTAO_PROVIDER_NAME,
           encrypted_refresh_token := some "enc" }] IdpResult.err).redis
      (SESSION_KEY_NS ++ "s1") = none ∧
    (∀ rc ∈ (logout_session {} 0 (some "s1")
        [(SESSION_KEY_NS ++ "s1", ⟨60, StoredVal.record
          { app_user_id := some 7 }⟩)]
        [{ user_id := 7, iam_provider_name := CTAO_PROVIDER_NAME,
           encrypted_refresh_token := some "enc" }] IdpResult.err).db,
      rc.user_id ≠ 7) ∧
    (∀ now2 db2 idp2,
      (AuthService.get_current_session_user_data {} now2 (some "s1")
        (logout_session {} 0 (some "s1")
          [(SESSION_KEY_NS ++ "s1", ⟨60, StoredVal.record
            { app_user_id := some 7 }⟩)]
          [{ user_id := 7, iam_provider_name := CTAO_PROVIDER_NAME,
             encrypted_refresh_token := some "enc" }] IdpResult.err).redis
        db2 idp2).result = none) :=
  C8_logout_clears_session {} 0 "s1"
    [(SESSION_KEY_NS ++ "s1", ⟨60, StoredVal.record
      { app_user_id := some 7 }⟩)]
    [{ user_id := 7, iam_provider_name := CTAO_PROVIDER_NAME,
       encrypted_refresh_token := some "enc" }] IdpResult.err
    { app_user_id := some 7 } 7
    (by decide) (by decide) (by decide) (by decide)

/-- Claim C10 counterexample: a session key that exists in the store but
holds the empty string (falsy in Python) short-circuits the lookup before
the `expire` call: both lookups return no user and the TTL stays 7 instead
of being reset to the configured 28800, refuting the claim's "for every
lookup in which the session key exists". -/
theorem C10_counterexample :
    redisGet [(SESSION_KEY_NS ++ "s1", ⟨7, StoredVal.empty⟩)]
      (SESSION_KEY_NS ++ "s1") = some StoredVal.empty ∧
    redisTtl (AuthService.get_current_session_user_data {} 0 (some "s1")
        [(SESSION_KEY_NS ++ "s1", ⟨7, StoredVal.empty⟩)] []
        IdpResult.err).redis (SESSION_KEY_NS ++ "s1") = some 7 ∧
    redisTtl (SessionAuth.get_current_session_user_data {} (some "s1")
        [(SESSION_KEY_NS ++ "s1", ⟨7, StoredVal.empty⟩)]).redis
      (SESSION_KEY_NS ++ "s1") = some 7 ∧
    (7 : Int) ≠ (28800 : Int) := by
  refine ⟨by decide, by decide, by decide, by decide⟩

/-- Claim C10 (amended): for every lookup (auth-service and session-auth) in
which the session key exists in the store with a non-empty stored value, the
TTL is reset to the full configured session duration before the stored
record is parsed or validated — in particular the TTL ends up at the full
duration even when the lookup then returns no user because the stored blob
is malformed JSON or lacks `app_user_id`. -/
theorem C10_ttl_reset (s : Settings) (now : Int) (sid : String)
    (redis : RedisState) (db : Db) (idp : IdpResult) (sv : StoredVal)
    (hsid : sid ≠ "")
    (hget : redisGet redis (SESSION_KEY_NS ++ sid) = some sv)
    (hne : sv ≠ StoredVal.empty) :
    redisTtl (AuthService.get_current_session_user_data s now (some sid) redis
        db idp).redis (SESSION_KEY_NS ++ sid) =
      some s.SESSION_DURATION_SECONDS ∧
    redisTtl (SessionAuth.get_current_session_user_data s (some sid)
        redis).redis (SESSION_KEY_NS ++ sid) =
      some s.SESSION_DURATION_SECONDS := by
  have hkey : redisGet redis (SESSION_KEY_NS ++ sid) ≠ none := by
    rw [hget]
    simp
  constructor
  · cases sv with
    | empty => exact absurd rfl hne
    | malformed =>
      have hred : (AuthService.get_current_session_user_data s now (some sid)
          redis db idp).redis =
          redisExpire redis (SESSION_KEY_NS ++ sid)
            s.SESSION_DURATION_SECONDS := by
        unfold AuthService.get_current_session_user_data
        simp [hsid, hget]
      rw [hred]
      exact redisTtl_expire_self _ _ _ hkey
    | record r =>
      cases hau : r.app_user_id with
      | none =>
        have hred : (AuthService.get_current_session_user_data s now (some sid)
            redis db idp).redis =
            redisExpire redis (SESSION_KEY_NS ++ sid)
              s.SESSION_DURATION_SECONDS := by
          unfold AuthService.get_current_session_user_data
          simp [hsid, hget, hau]
        rw [hred]
        exact redisTtl_expire_self _ _ _ hkey
      | some uid =>
        by_cases h0 : uid = 0
        · have hred : (AuthService.get_current_session_user_data s now
              (some sid) redis db idp).redis =
              redisExpire redis (SESSION_KEY_NS ++ sid)
                s.SESSION_DURATION_SECONDS := by
            unfold AuthService.get_current_session_user_data
            simp [hsid, hget, hau, h0]
          rw [hred]
          exact redisTtl_expire_self _ _ _ hkey
        · rw [authService_lookup_valid_record s now sid redis db idp r uid
            hsid hget hau h0]
          rcases handleTokens_redis_cases s now (SESSION_KEY_NS ++ sid) r uid
            (redisExpire redis (SESSION_KEY_NS ++ sid)
              s.SESSION_DURATION_SECONDS) db idp with hcase | ⟨v, hcase⟩
          · rw [hcase]
            exact redisTtl_expire_self _ _ _ hkey
          · rw [hcase]
            exact redisTtl_setex_self _ _ _ _
  · cases sv with
    | empty => exact absurd rfl hne
    | malformed =>
      have hred : (SessionAuth.get_current_session_user_data s (some sid)
          redis).redis =
          redisExpire redis (SESSION_KEY_NS ++ sid)
            s.SESSION_DURATION_SECONDS := by
        unfold SessionAuth.get_current_session_user_data
        simp [hsid, hget]
      rw [hred]
      exact redisTtl_expire_self _ _ _ hkey
    | record r =>
      have hred : (SessionAuth.get_current_session_user_data s (some sid)
          redis).redis =
          redisExpire redis (SESSION_KEY_NS ++ sid)
            s.SESSION_DURATION_SECONDS := by
        unfold SessionAuth.get_current_session_user_data
        cases hau : r.app_user_id with
        | none => simp [hsid, hget, hau]
        | some uid =>
          by_cases h0 : uid = 0
          · simp [hsid, hget, hau, h0]
          · simp [hsid, hget, hau, h0]
      rw [hred]
      exact redisTtl_expire_self _ _ _ hkey

/-- Witness for C10 (amended): a malformed stored blob with TTL 7 ends up at
the full configured duration (28800) under both lookups. -/
theorem C10_ttl_reset_witness :
    redisTtl (AuthService.get_current_session_user_data {} 0 (some "s1")
        [(SESSION_KEY_NS ++ "s1", ⟨7, StoredVal.malformed⟩)] []
        IdpResult.err).redis (SESSION_KEY_NS ++ "s1") = some 28800 ∧
    redisTtl (SessionAuth.get_current_session_user_data {} (some "s1")
        [(SESSION_KEY_NS ++ "s1", ⟨7, StoredVal.malformed⟩)]).redis
      (SESSION_KEY_NS ++ "s1") = some 28800 :=
  C10_ttl_reset {} 0 "s1"
    [(SESSION_KEY_NS ++ "s1", ⟨7, StoredVal.malformed⟩)] [] IdpResult.err
    StoredVal.malformed (by decide) (by decide) (by decide)

/-- Claim C6 counterexample: a response whose only `Set-Cookie` header sets a
DIFFERENT cookie (`theme`) whose value merely contains the substring
`"ctao_session_main="` carries no `Set-Cookie` for the session cookie, yet
the middleware — whose guard is Python's substring test — leaves the
response unchanged instead of re-setting the session cookie carried by the
request, refuting the claim's second half. -/
theorem C6_counterexample :
    (["theme=ctao_session_main=x"].all (fun hdr =>
      !(listPref (COOKIE_NAME_MAIN_SESSION ++ "=").data hdr.data)) = true) ∧
    rolling_session_cookie {} (some "abc")
        ⟨["theme=ctao_session_main=x"]⟩ =
      ⟨["theme=ctao_session_main=x"]⟩ := by
  refine ⟨by decide, by decide⟩

/-- Claim C6 (amended): the rolling-session middleware never double-issues
the session cookie: for every response already carrying a `Set-Cookie`
header for the session cookie (a header starting with
`"ctao_session_main="`) it adds no second `Set-Cookie` at all (the response
is returned unchanged); and for every response none of whose `Set-Cookie`
headers even contains the substring `"ctao_session_main="` (the guard is a
substring test, see the counterexample), whose request carried a non-empty
session cookie, it sets that same cookie value with the full configured
max-age. -/
theorem C6_rolling_cookie (s : Settings) (req : Option String)
    (resp : MwResponse) (sid : String) :
    ((∃ hdr ∈ resp.setCookieHeaders,
        listPref (COOKIE_NAME_MAIN_SESSION ++ "=").data hdr.data = true) →
      rolling_session_cookie s req resp = resp) ∧
    ((∀ hdr ∈ resp.setCookieHeaders,
        listSub (COOKIE_NAME_MAIN_SESSION ++ "=").data hdr.data = false) →
      req = some sid → sid ≠ "" →
      rolling_session_cookie s req resp =
        ⟨resp.setCookieHeaders ++
          [serializeSetCookie COOKIE_NAME_MAIN_SESSION sid
            s.SESSION_DURATION_SECONDS]⟩) := by
  constructor
  · rintro ⟨hdr, hmem, hpref⟩
    have hany : resp.setCookieHeaders.any (fun hdr =>
        listSub (COOKIE_NAME_MAIN_SESSION ++ "=").data hdr.data) = true :=
      List.any_eq_true.mpr ⟨hdr, hmem, listSub_of_pref _ _ hpref⟩
    unfold rolling_session_cookie
    rw [if_pos hany]
  · intro hall hreq hsid
    have hany : ¬(resp.setCookieHeaders.any (fun hdr =>
        listSub (COOKIE_NAME_MAIN_SESSION ++ "=").data hdr.data) = true) := by
      rw [List.any_eq_true]
      rintro ⟨hdr, hmem, hsub⟩
      rw [hall hdr hmem] at hsub
      cases hsub
    unfold rolling_session_cookie
    rw [if_neg hany, hreq]
    dsimp only
    rw [if_neg hsid]

/-- Witness for C6 (amended): a response already carrying the session cookie
is returned unchanged, and a response with an unrelated `Set-Cookie` header
gets the request's session cookie appended with the full max-age. -/
theorem C6_rolling_cookie_witness :
    rolling_session_cookie {} (some "abc")
        ⟨["ctao_session_main=abc; Path=/"]⟩ =
      ⟨["ctao_session_main=abc; Path=/"]⟩ ∧
    rolling_session_cookie {} (some "abc") ⟨["foo=bar"]⟩ =
      ⟨["foo=bar"] ++
        [serializeSetCookie COOKIE_NAME_MAIN_SESSION "abc" 28800]⟩ :=
  ⟨(C6_rolling_cookie {} (some "abc")
      ⟨["ctao_session_main=abc; Path=/"]⟩ "abc").1
      ⟨"ctao_session_main=abc; Path=/", by decide, by decide⟩,
   (C6_rolling_cookie {} (some "abc") ⟨["foo=bar"]⟩ "abc").2
      (by decide) (by decide) (by decide)⟩
